import Mathlib

/-!
Verification of the expand/flatten translation layer of the
terraform-provider-ec repository (deploymentresource / deploymentdatasource
packages), against its natural-language specification.

The repository sources available here contain the unit tests
(`Test_expandEssResources`, `TestFlattenObservability`); the bodies of
`expandEssResources` and `flattenObservability` themselves are not among the
provided files, so they are modelled from the specification (see the doc
comments starting with `Modelled from the spec:`), with the test fixtures in
the sources pinning the concrete values (the aws-io-optimized-v2 template).

Conventions of the shallow embedding:
* Go pointer fields (`*string`, `*int32`, `*bool`) become `Option` fields;
  a Go nil pointer is `none`.
* Go `int`/`int32` sizes and zone counts become `Int` (the values involved,
  1..4096, are far from the int32 boundaries, so no wraparound modelling is
  needed).
* A Go `(result, error)` pair becomes `Except String result`; a Go
  `nil, nil` return from a slice-valued function is `.ok []`.
* The flat Terraform attribute map is embedded as a structure whose fields
  are `Option`-typed where the tests pass explicit `nil` or omit the key.
* JSON-valued override strings (`user_settings_json`) are carried verbatim
  as their raw strings; none of the verified properties depends on the
  generic-map decoding of their contents, only on presence/absence.
-/

/-- Embedding of `models.TopologySize`: a resource kind (e.g. "memory") and
a numeric value in the canonical base unit (megabytes). Both fields are Go
pointers in the source model, hence `Option`. -/
structure TopologySize where
  resource : Option String
  value : Option Int
deriving DecidableEq

/-- Embedding of `models.EnterpriseSearchNodeTypes`: the three node-type
capability flags, each a Go `*bool`. -/
structure EnterpriseSearchNodeTypes where
  appserver : Option Bool
  connector : Option Bool
  worker : Option Bool
deriving DecidableEq

/-- Embedding of `models.EnterpriseSearchTopologyElement`: one sizing and
placement unit of a cluster plan. -/
structure EnterpriseSearchTopologyElement where
  zoneCount : Int
  instanceConfigurationID : String
  size : Option TopologySize
  nodeType : Option EnterpriseSearchNodeTypes
deriving DecidableEq

/-- Embedding of `models.EnterpriseSearchConfiguration`: the product
configuration carried by a plan. The JSON-valued user settings are kept as
their raw strings (`none` when the corresponding flat field is absent). -/
structure EnterpriseSearchConfiguration where
  version : String
  userSettingsYaml : String
  userSettingsOverrideYaml : String
  userSettingsJSON : Option String
  userSettingsOverrideJSON : Option String
deriving DecidableEq

/-- Embedding of `models.EnterpriseSearchPlan`. -/
structure EnterpriseSearchPlan where
  enterpriseSearch : Option EnterpriseSearchConfiguration
  clusterTopology : List EnterpriseSearchTopologyElement
deriving DecidableEq

/-- Embedding of `models.EnterpriseSearchPayload`: the nested API request
payload for one enterprise_search resource. -/
structure EnterpriseSearchPayload where
  elasticsearchClusterRefID : Option String
  region : Option String
  refID : Option String
  plan : Option EnterpriseSearchPlan
deriving DecidableEq

/-- Embedding of one flat `topology` block of the Terraform configuration.
Every field is `Option`-typed: `none` is an omitted (or explicitly nil)
attribute. -/
structure EssTopologyConfig where
  instance_configuration_id : Option String
  size : Option String
  zone_count : Option Int
  node_type_appserver : Option Bool
  node_type_connector : Option Bool
  node_type_worker : Option Bool
deriving DecidableEq

/-- Embedding of one flat `config` block of the Terraform configuration
(raw YAML/JSON override strings); `none` is an omitted or explicitly nil
attribute. -/
structure EssConfigBlock where
  user_settings_yaml : Option String
  user_settings_override_yaml : Option String
  user_settings_json : Option String
  user_settings_override_json : Option String
deriving DecidableEq

/-- Embedding of one flat enterprise_search resource block. `region` is
`Option`-typed because the tests exercise an explicit nil region;
`topology` and `config` are repeated blocks, so lists (an absent block is
the empty list, exactly as an absent repeated block reads back from the
Terraform SDK). `resource_id` is accepted but, as in the expected payloads of the source
tests, never copied into the payload. -/
structure EssResourceConfig where
  ref_id : String
  resource_id : String
  version : String
  region : Option String
  elasticsearch_cluster_ref_id : String
  config : List EssConfigBlock
  topology : List EssTopologyConfig
deriving DecidableEq

/-- Modelled from the spec: the error produced when the flat config requests
a resource kind entirely absent from the template ("expansion fails with an
error stating the template must be changed to support it"); wording taken
from the expected error of the source test at part_000 line 525. -/
def essNotConfiguredError : String :=
  "enterprise_search specified but deployment template is not configured for it. Use a different template if you wish to add enterprise_search"

/-- Modelled from the spec: the descriptive validation error naming the
offending instance-configuration id ("mismatch fails with a descriptive
error naming the offending id"). -/
def invalidInstanceConfigurationIdError (icid : String) : String :=
  "enterprise_search topology: invalid instance_configuration_id: \"" ++ icid ++
    "\" does not match any of the deployment template instance configurations"

/-- Accumulating decimal reading of a digit sequence; fails on the first
non-digit character. -/
def parseDecimalAux : List Char → Nat → Option Nat
  | [], acc => some acc
  | c :: cs, acc =>
    if c.isDigit then parseDecimalAux cs (acc * 10 + (c.toNat - 48)) else none

/-- Decimal reading of a non-empty digit sequence. -/
def parseDecimal : List Char → Option Nat
  | [] => none
  | cs => parseDecimalAux cs 0

/-- Modelled from the spec: size strings parse "converting units to a
canonical base unit (e.g., gigabytes -> megabytes x1024)"; `"4g"` parses to
4096, `"2g"` to 2048. A string without the gigabyte suffix or without a
numeric stem is a malformed-size validation error. -/
def parseGb (s : String) : Except String Int :=
  if s.data.getLast? = some 'g' then
    match parseDecimal s.data.dropLast with
    | some n => .ok ((n : Int) * 1024)
    | none => .error ("failed to parse size string: " ++ s)
  else .error ("failed to parse size string: " ++ s)

/-- Modelled from the spec: "size strings (e.g., `2g`, `4g`) parse to a
resource-kind + numeric-value pair" with base unit megabytes and resource
kind "memory". -/
def parseTopologySizeString (s : String) : Except String TopologySize :=
  match parseGb s with
  | .error e => .error e
  | .ok v => .ok { resource := some "memory", value := some v }

/-- Modelled from the spec: the size of a topology element is the parse of
the explicitly supplied size string when there is one ("explicit config
always wins"), and otherwise the size of the matching template entry
("template is authoritative fallback"). -/
def expandEssTopologySize (sz : Option String) (tplSize : Option TopologySize) :
    Except String (Option TopologySize) :=
  match sz with
  | none => .ok tplSize
  | some s =>
    match parseTopologySizeString s with
    | .error e => .error e
    | .ok t => .ok (some t)

/-- Modelled from the spec: node-type capability flags are back-filled
per field from the matching template entry; an explicitly supplied flag
wins over the one of the template. -/
def expandEssNodeTypes (t : EssTopologyConfig)
    (tplNt : Option EnterpriseSearchNodeTypes) : Option EnterpriseSearchNodeTypes :=
  let d := tplNt.getD { appserver := none, connector := none, worker := none }
  some
    { appserver := t.node_type_appserver.or d.appserver
      connector := t.node_type_connector.or d.connector
      worker := t.node_type_worker.or d.worker }

/-- Modelled from the spec: "if the flat config omits the id but supplies
exactly one topology block, the single template entry for that resource kind
is inferred. If more than one template entry exists and the id is omitted,
expansion fails deterministically": with the id omitted, the inference only
fires for a singleton flat topology against a singleton template topology;
otherwise the id stays empty and the subsequent validation rejects it.
`n` is the number of topology blocks the flat config supplies. -/
def resolveInstanceConfigurationId (n : Nat) (explicit : Option String)
    (tplTopos : List EnterpriseSearchTopologyElement) : String :=
  match explicit with
  | some icid => icid
  | none =>
    if n = 1 then
      match tplTopos with
      | [e] => e.instanceConfigurationID
      | _ => ""
    else ""

/-- Modelled from the spec: "the instance-configuration id on each topology
element, once resolved (explicit or inferred), must exist in the entries of
the template for that resource kind; mismatch fails with a descriptive error
naming the offending id". On success the matching template entry is
returned, to serve as the back-fill source. -/
def matchEssTopology (icid : String)
    (tplTopos : List EnterpriseSearchTopologyElement) :
    Except String EnterpriseSearchTopologyElement :=
  match tplTopos.find? (fun e => e.instanceConfigurationID = icid) with
  | some e => .ok e
  | none => .error (invalidInstanceConfigurationIdError icid)

/-- Modelled from the spec: expansion of one flat topology block. The
resolved id is validated against the template, then each omitted field
(zone count, size, node-type flags) is back-filled from the matching
template entry while explicitly supplied fields are kept. -/
def expandEssTopologyElement (n : Nat)
    (tplTopos : List EnterpriseSearchTopologyElement) (t : EssTopologyConfig) :
    Except String EnterpriseSearchTopologyElement :=
  let icid := resolveInstanceConfigurationId n t.instance_configuration_id tplTopos
  match matchEssTopology icid tplTopos with
  | .error e => .error e
  | .ok m =>
    match expandEssTopologySize t.size m.size with
    | .error e => .error e
    | .ok size =>
      .ok
        { zoneCount := t.zone_count.getD m.zoneCount
          instanceConfigurationID := icid
          size := size
          nodeType := expandEssNodeTypes t m.nodeType }

/-- Modelled from the spec: expansion of a list of flat topology blocks,
aborting on the first failing block. -/
def expandEssTopologies (n : Nat)
    (tplTopos : List EnterpriseSearchTopologyElement) :
    List EssTopologyConfig → Except String (List EnterpriseSearchTopologyElement)
  | [] => .ok []
  | t :: ts =>
    match expandEssTopologyElement n tplTopos t with
    | .error e => .error e
    | .ok elem =>
      match expandEssTopologies n tplTopos ts with
      | .error e => .error e
      | .ok rest => .ok (elem :: rest)

/-- Modelled from the spec: "when the flat topology block is absent or
incomplete, fields are back-filled from the matching template entry" — an
entirely absent topology block yields the cluster topology of the template
verbatim; otherwise each supplied block is expanded. -/
def expandEssTopologyList (topos : List EssTopologyConfig)
    (tplTopos : List EnterpriseSearchTopologyElement) :
    Except String (List EnterpriseSearchTopologyElement) :=
  match topos with
  | [] => .ok tplTopos
  | _ :: _ => expandEssTopologies topos.length tplTopos topos

/-- The cluster topology entries of the template for the enterprise_search
resource kind. -/
def essTemplateTopologies (tpl : EnterpriseSearchPayload) :
    List EnterpriseSearchTopologyElement :=
  match tpl.plan with
  | some pl => pl.clusterTopology
  | none => []

/-- Modelled from the spec: the `config` block "carrying raw YAML/JSON
override strings" maps "to corresponding payload fields verbatim"; an absent
or nil field produces the zero value of the payload field (empty string for the
YAML strings, absence for the JSON values). Only the first config block is
considered, matching the singleton block of the source tests. -/
def expandEssConfig (version : String) (cfgs : List EssConfigBlock) :
    EnterpriseSearchConfiguration :=
  match cfgs with
  | [] =>
    { version := version
      userSettingsYaml := ""
      userSettingsOverrideYaml := ""
      userSettingsJSON := none
      userSettingsOverrideJSON := none }
  | c :: _ =>
    { version := version
      userSettingsYaml := c.user_settings_yaml.getD ""
      userSettingsOverrideYaml := c.user_settings_override_yaml.getD ""
      userSettingsJSON := c.user_settings_json
      userSettingsOverrideJSON := c.user_settings_override_json }

/-- Modelled from the spec: expansion of one flat enterprise_search resource
block against the template entry for that resource kind. Scalar fields copy
directly; the region falls back to the region of the template when the flat
config leaves it nil (template is authoritative fallback, explicit config
always wins). -/
def expandEssResource (es : EssResourceConfig) (tpl : EnterpriseSearchPayload) :
    Except String EnterpriseSearchPayload :=
  match expandEssTopologyList es.topology (essTemplateTopologies tpl) with
  | .error e => .error e
  | .ok topology =>
    .ok
      { elasticsearchClusterRefID := some es.elasticsearch_cluster_ref_id
        region := es.region.or tpl.region
        refID := some es.ref_id
        plan := some
          { enterpriseSearch := some (expandEssConfig es.version es.config)
            clusterTopology := topology } }

/-- Modelled from the spec: expansion of the flat resource blocks one by
one, aborting on the first failure. -/
def expandEssResourceList (tpl : EnterpriseSearchPayload) :
    List EssResourceConfig → Except String (List EnterpriseSearchPayload)
  | [] => .ok []
  | c :: cs =>
    match expandEssResource c tpl with
    | .error e => .error e
    | .ok p =>
      match expandEssResourceList tpl cs with
      | .error e => .error e
      | .ok ps => .ok (p :: ps)

/-- Modelled from the spec: `expand(flatConfig, template) -> (payload, error)`
for the enterprise_search resource kind (the body of `expandEssResources` is
not among the provided sources; only its test is). An absent flat config
yields a nil result, not an error (`.ok []` embeds the Go `nil, nil`); a flat
config requesting a resource kind absent from the template (a nil template
payload) fails with the not-configured error; otherwise each block is
expanded against the template. -/
def expandEssResources (ess : List EssResourceConfig)
    (tpl : Option EnterpriseSearchPayload) :
    Except String (List EnterpriseSearchPayload) :=
  match ess with
  | [] => .ok []
  | _ :: _ =>
    match tpl with
    | none => .error essNotConfiguredError
    | some t => expandEssResourceList t ess

/-- The enterprise_search entry of the aws-io-optimized-v2 deployment
template fixture (testdata/template-aws-io-optimized-v2.json, referenced but
not included in the provided sources): a single permitted instance
configuration `aws.enterprisesearch.m5d` with default zone count 2, default
size 2048 MB of memory and all three node-type flags set, in region
us-east-1 — the values the source test expects verbatim in every
back-filled payload. -/
def awsIoOptimizedV2EssTopology : EnterpriseSearchTopologyElement :=
  { zoneCount := 2
    instanceConfigurationID := "aws.enterprisesearch.m5d"
    size := some { resource := some "memory", value := some 2048 }
    nodeType := some { appserver := some true, connector := some true, worker := some true } }

/-- The plan of the enterprise_search entry of the aws-io-optimized-v2
deployment template fixture: its cluster topology holds the single
permitted instance configuration. -/
def awsIoOptimizedV2EssPlan : EnterpriseSearchPlan :=
  { enterpriseSearch := none
    clusterTopology := [awsIoOptimizedV2EssTopology] }

/-- The enterprise_search payload of the aws-io-optimized-v2 deployment
template fixture (the value of `essResource(parseDeploymentTemplate(...))`
in the source test). -/
def awsIoOptimizedV2Ess : EnterpriseSearchPayload :=
  { elasticsearchClusterRefID := none
    region := some "us-east-1"
    refID := none
    plan := some awsIoOptimizedV2EssPlan }

/-- Embedding of `models.ObservabilityAbsoluteDeployment`: the destination a
logging or metrics setting ships to (`DeploymentID` is a Go `*string`,
`RefID` a plain string). -/
structure ObservabilityAbsoluteDeployment where
  deploymentID : Option String
  refID : String
deriving DecidableEq

/-- Embedding of `models.DeploymentLoggingSettings`. -/
structure DeploymentLoggingSettings where
  destination : Option ObservabilityAbsoluteDeployment
deriving DecidableEq

/-- Embedding of `models.DeploymentMetricsSettings`. -/
structure DeploymentMetricsSettings where
  destination : Option ObservabilityAbsoluteDeployment
deriving DecidableEq

/-- Embedding of `models.DeploymentObservabilitySettings`. -/
structure DeploymentObservabilitySettings where
  logging : Option DeploymentLoggingSettings
  metrics : Option DeploymentMetricsSettings
deriving DecidableEq

/-- Embedding of `models.DeploymentSettings`, restricted to the
observability substructure the flattener traverses. -/
structure DeploymentSettings where
  observability : Option DeploymentObservabilitySettings
deriving DecidableEq

/-- One flat observability entry: the denormalized identity (deployment id
plus ref id) and the boolean capability flags; a `false` flag embeds the
absence of the corresponding key in the Go map. -/
structure ObservabilityEntry where
  deployment_id : Option String
  ref_id : String
  logs : Bool
  metrics : Bool
deriving DecidableEq

/-- Modelled from the spec: contribute one capability flag (`logs` when
`setLogs`, `metrics` otherwise) for a destination to the shared output,
merging under the natural key (deployment id + ref id) when an entry with
that key already exists, and appending a fresh entry otherwise —
"aggregation by natural key, not by source substructure". -/
def setObservabilityFlag (dest : ObservabilityAbsoluteDeployment)
    (setLogs : Bool) : List ObservabilityEntry → List ObservabilityEntry
  | [] =>
    [{ deployment_id := dest.deploymentID
       ref_id := dest.refID
       logs := setLogs
       metrics := !setLogs }]
  | e :: es =>
    if e.deployment_id = dest.deploymentID ∧ e.ref_id = dest.refID then
      (if setLogs then { e with logs := true } else { e with metrics := true }) :: es
    else
      e :: setObservabilityFlag dest setLogs es

/-- Modelled from the spec: `flatten(payload) -> flatConfig` for the
observability settings (the body of `flattenObservability` is not among the
provided sources; only its test is). Every traversal step short-circuits to
"no entry" when its parent is absent; the logging destination and the
metrics destination each independently contribute their flag to the shared
output, merged by natural key. -/
def flattenObservability (settings : Option DeploymentSettings) :
    List ObservabilityEntry :=
  match settings with
  | none => []
  | some s =>
    match s.observability with
    | none => []
    | some obs =>
      let afterLogs :=
        match obs.logging with
        | some l =>
          match l.destination with
          | some d => setObservabilityFlag d true []
          | none => []
        | none => []
      match obs.metrics with
      | some m =>
        match m.destination with
        | some d => setObservabilityFlag d false afterLogs
        | none => afterLogs
      | none => afterLogs

/-- A flat topology block with every attribute omitted. -/
def emptyTopologyConfig : EssTopologyConfig :=
  { instance_configuration_id := none
    size := none
    zone_count := none
    node_type_appserver := none
    node_type_connector := none
    node_type_worker := none }

/-- The flat topology block of the source test "parses an enterprise_search
resource with topology but no instance_configuration_id": only a size of
"4g" is supplied. -/
def sizeOnlyTopologyConfig : EssTopologyConfig :=
  { emptyTopologyConfig with size := some "4g" }

/-- The flat topology block of the source test "parses an enterprise_search
resource with explicit topology": id, size and zone count all supplied. -/
def explicitTopologyConfig : EssTopologyConfig :=
  { emptyTopologyConfig with instance_configuration_id := some "aws.enterprisesearch.m5d", size := some "2g", zone_count := some 1 }

/-- The flat topology block of the source test "parses an enterprise_search
resource with topology but instance_configuration_id": only the id is
supplied. -/
def icidOnlyTopologyConfig : EssTopologyConfig :=
  { emptyTopologyConfig with instance_configuration_id := some "aws.enterprisesearch.m5d" }

/-- The flat topology block of the source test "parses an enterprise_search
resource with topology and zone_count": only the zone count is supplied. -/
def zoneCountOnlyTopologyConfig : EssTopologyConfig :=
  { emptyTopologyConfig with zone_count := some 1 }

/-- The flat topology block of the source test "parses an enterprise_search
resource with invalid instance_configuration_id": the supplied id does not
occur in the template. -/
def unknownIdTopologyConfig : EssTopologyConfig :=
  { emptyTopologyConfig with instance_configuration_id := some "aws.enterprisesearch.m5", size := some "2g", zone_count := some 1 }

/-- A flat config block whose four fields are all explicitly nil (the
source test "parses an enterprise_search resource with explicit nils"). -/
def nilFieldsConfigBlock : EssConfigBlock :=
  { user_settings_yaml := none
    user_settings_override_yaml := none
    user_settings_json := none
    user_settings_override_json := none }

/-- The scalar attributes shared by the flat enterprise_search resources of
the source tests (`mock.ValidClusterID` is the resource id the tests
pass; it never reaches the payload). -/
def baseEssResourceConfig : EssResourceConfig :=
  { ref_id := "main-enterprise_search"
    resource_id := "320b7b540dfc967a7a649c18e2fce4ed"
    version := "7.7.0"
    region := some "some-region"
    elasticsearch_cluster_ref_id := "somerefid"
    config := []
    topology := [] }

/-- Flat resource supplying exactly one topology block with the
instance-configuration id omitted. -/
def sizeOnlyEssResourceConfig : EssResourceConfig :=
  { baseEssResourceConfig with topology := [sizeOnlyTopologyConfig] }

/-- Flat resource carrying an explicit id unknown to the template. -/
def unknownIdEssResourceConfig : EssResourceConfig :=
  { baseEssResourceConfig with topology := [unknownIdTopologyConfig] }

/-- Flat resource supplying two topology blocks, neither with an
instance-configuration id. -/
def twoBlocksEssResourceConfig : EssResourceConfig :=
  { baseEssResourceConfig with topology := [sizeOnlyTopologyConfig, sizeOnlyTopologyConfig] }

/-- Flat resource of the "explicit nils" source test: nil region, nil
config-block fields, nil topology. -/
def nilFieldsEssResourceConfig : EssResourceConfig :=
  { baseEssResourceConfig with ref_id := "secondary-enterprise_search", region := none, config := [nilFieldsConfigBlock] }

/-- The product configuration every expanded test payload carries when the
flat config block is absent or all nil. -/
def expandedBaseConfiguration : EnterpriseSearchConfiguration :=
  { version := "7.7.0"
    userSettingsYaml := ""
    userSettingsOverrideYaml := ""
    userSettingsJSON := none
    userSettingsOverrideJSON := none }

/-- The payload `expand` produces for `sizeOnlyEssResourceConfig` against
the aws-io-optimized-v2 template: the id and every omitted field come from
the template entry, the explicitly supplied 4g size is kept (as 4096 MB of
memory). -/
def sizeOnlyExpandedPayload : EnterpriseSearchPayload :=
  { elasticsearchClusterRefID := some "somerefid"
    region := some "some-region"
    refID := some "main-enterprise_search"
    plan := some { enterpriseSearch := some expandedBaseConfiguration, clusterTopology := [{ awsIoOptimizedV2EssTopology with size := some { resource := some "memory", value := some 4096 } }] } }

/-- The payload `expand` produces for `baseEssResourceConfig` (no topology
block) against the aws-io-optimized-v2 template: the topology element is
the template entry verbatim. -/
def noTopologyExpandedPayload : EnterpriseSearchPayload :=
  { elasticsearchClusterRefID := some "somerefid"
    region := some "some-region"
    refID := some "main-enterprise_search"
    plan := some { enterpriseSearch := some expandedBaseConfiguration, clusterTopology := [awsIoOptimizedV2EssTopology] } }

/-- The flat config block of the source test "parses an enterprise_search
resource with explicit topology and config" (braces in the raw JSON strings
written with escapes). -/
def populatedConfigBlock : EssConfigBlock :=
  { user_settings_yaml := some "some.setting: value"
    user_settings_override_yaml := some "some.setting: override"
    user_settings_json := some "\x7b\"some.setting\":\"value\"\x7d"
    user_settings_override_json := some "\x7b\"some.setting\":\"override\"\x7d" }

/-- Flat resource of the "explicit topology and config" source test. -/
def populatedEssResourceConfig : EssResourceConfig :=
  { baseEssResourceConfig with ref_id := "secondary-enterprise_search", config := [populatedConfigBlock], topology := [{ explicitTopologyConfig with size := some "4g", node_type_appserver := some true, node_type_connector := some true, node_type_worker := some true }] }

/-- The value of `mock.ValidClusterID` the source tests use as the
observability destination deployment id. -/
def validClusterId : String := "320b7b540dfc967a7a649c18e2fce4ed"

/-- The observability destination every source test points at: the mock
cluster id and the main-elasticsearch ref id. -/
def mainEsDestination : ObservabilityAbsoluteDeployment :=
  { deploymentID := some validClusterId, refID := "main-elasticsearch" }

/-- Unpacking of a successful expansion of a single flat resource block:
the block itself expanded successfully and the result is its singleton. -/
theorem expandEssResources_singleton_ok {es : EssResourceConfig}
    {tpl : EnterpriseSearchPayload} {res : List EnterpriseSearchPayload}
    (h : expandEssResources [es] (some tpl) = .ok res) :
    ∃ p, expandEssResource es tpl = .ok p ∧ res = [p] := by
  cases h1 : expandEssResource es tpl with
  | error e => simp [expandEssResources, expandEssResourceList, h1] at h
  | ok p =>
    refine ⟨p, rfl, ?_⟩
    simp [expandEssResources, expandEssResourceList, h1] at h
    exact h.symm

/-- Unpacking of a successful expansion of one flat resource block: the
topology expansion succeeded and the payload is assembled from it and the
scalar fields. -/
theorem expandEssResource_ok {es : EssResourceConfig}
    {tpl : EnterpriseSearchPayload} {p : EnterpriseSearchPayload}
    (h : expandEssResource es tpl = .ok p) :
    ∃ topos, expandEssTopologyList es.topology (essTemplateTopologies tpl) = .ok topos ∧
      p = { elasticsearchClusterRefID := some es.elasticsearch_cluster_ref_id,
            region := es.region.or tpl.region,
            refID := some es.ref_id,
            plan := some { enterpriseSearch := some (expandEssConfig es.version es.config),
                           clusterTopology := topos } } := by
  cases h1 : expandEssTopologyList es.topology (essTemplateTopologies tpl) with
  | error e => simp [expandEssResource, h1] at h
  | ok topos =>
    refine ⟨topos, rfl, ?_⟩
    simp [expandEssResource, h1] at h
    exact h.symm

/-- Validation succeeds on the very template entry whose id is looked
up. -/
theorem matchEssTopology_self (e : EnterpriseSearchTopologyElement) :
    matchEssTopology e.instanceConfigurationID [e] = .ok e := by
  simp [matchEssTopology, List.find?]

/-- Claim C1: for every flat config supplying exactly one topology block
with the instance-configuration id omitted, against a template holding a
single entry for that resource kind, expand infers the id of that single
template entry for the element, back-filling any other omitted topology
field (zone count, size, node-type flags) from the template entry while
explicitly supplied fields are kept as given. -/
theorem expand_infers_single_template_instance_configuration
    (es : EssResourceConfig) (tpl : EnterpriseSearchPayload)
    (pl : EnterpriseSearchPlan) (e : EnterpriseSearchTopologyElement)
    (t : EssTopologyConfig) (res : List EnterpriseSearchPayload)
    (hpl : tpl.plan = some pl) (hsingle : pl.clusterTopology = [e])
    (ht : es.topology = [t]) (hid : t.instance_configuration_id = none)
    (hok : expandEssResources [es] (some tpl) = .ok res) :
    ∃ p pl' elem, res = [p] ∧ p.plan = some pl' ∧ pl'.clusterTopology = [elem] ∧
      elem.instanceConfigurationID = e.instanceConfigurationID ∧
      elem.zoneCount = t.zone_count.getD e.zoneCount ∧
      (t.size = none → elem.size = e.size) ∧
      (∀ s, t.size = some s → ∃ v, parseGb s = .ok v ∧
        elem.size = some { resource := some "memory", value := some v }) ∧
      (∃ tplNt, e.nodeType.getD { appserver := none, connector := none, worker := none } = tplNt ∧
        elem.nodeType = some { appserver := t.node_type_appserver.or tplNt.appserver,
                               connector := t.node_type_connector.or tplNt.connector,
                               worker := t.node_type_worker.or tplNt.worker }) := by
  have htl : essTemplateTopologies tpl = [e] := by
    simp [essTemplateTopologies, hpl, hsingle]
  obtain ⟨p, hp, hres⟩ := expandEssResources_singleton_ok hok
  obtain ⟨topos, htp, hpdef⟩ := expandEssResource_ok hp
  rw [ht, htl] at htp
  have hmatch := matchEssTopology_self e
  cases hs : t.size with
  | none =>
    have hsz : expandEssTopologySize t.size e.size = .ok e.size := by
      rw [hs]; rfl
    have hlist : expandEssTopologyList [t] [e] =
        .ok [{ zoneCount := t.zone_count.getD e.zoneCount,
               instanceConfigurationID := e.instanceConfigurationID,
               size := e.size, nodeType := expandEssNodeTypes t e.nodeType }] := by
      simp [expandEssTopologyList, expandEssTopologies, expandEssTopologyElement,
        resolveInstanceConfigurationId, hid, hmatch, hsz]
    rw [hlist] at htp
    simp only [Except.ok.injEq] at htp
    refine ⟨p, _, _, hres, by rw [hpdef], by rw [← htp], by simp, by simp, ?_, ?_, ?_⟩
    · intro _; simp
    · intro s hcon; exact absurd hcon (by simp)
    · exact ⟨_, rfl, by simp [expandEssNodeTypes]⟩
  | some s =>
    cases hg : parseGb s with
    | error msg =>
      have hsz : expandEssTopologySize t.size e.size = .error msg := by
        rw [hs]; simp [expandEssTopologySize, parseTopologySizeString, hg]
      have hlist : expandEssTopologyList [t] [e] = .error msg := by
        simp [expandEssTopologyList, expandEssTopologies, expandEssTopologyElement,
          resolveInstanceConfigurationId, hid, hmatch, hsz]
      rw [hlist] at htp
      exact absurd htp (by simp)
    | ok v =>
      have hsz : expandEssTopologySize t.size e.size =
          .ok (some { resource := some "memory", value := some v }) := by
        rw [hs]; simp [expandEssTopologySize, parseTopologySizeString, hg]
      have hlist : expandEssTopologyList [t] [e] =
          .ok [{ zoneCount := t.zone_count.getD e.zoneCount,
                 instanceConfigurationID := e.instanceConfigurationID,
                 size := some { resource := some "memory", value := some v },
                 nodeType := expandEssNodeTypes t e.nodeType }] := by
        simp [expandEssTopologyList, expandEssTopologies, expandEssTopologyElement,
          resolveInstanceConfigurationId, hid, hmatch, hsz]
      rw [hlist] at htp
      simp only [Except.ok.injEq] at htp
      refine ⟨p, _, _, hres, by rw [hpdef], by rw [← htp], by simp, by simp, ?_, ?_, ?_⟩
      · intro hcon; exact absurd hcon (by simp)
      · intro s' hs'
        obtain rfl : s = s' := by injection hs'
        exact ⟨v, hg, by simp⟩
      · exact ⟨_, rfl, by simp [expandEssNodeTypes]⟩

/-- Witness for claim C1 at the size-only source fixture: one topology
block carrying only a 4g size, against the aws-io-optimized-v2 template. -/
theorem expand_infers_single_template_instance_configuration_witness :
    sizeOnlyTopologyConfig.instance_configuration_id = none ∧
    expandEssResources [sizeOnlyEssResourceConfig] (some awsIoOptimizedV2Ess) = .ok [sizeOnlyExpandedPayload] ∧
    (∃ p pl' elem, [sizeOnlyExpandedPayload] = [p] ∧ p.plan = some pl' ∧ pl'.clusterTopology = [elem] ∧
      elem.instanceConfigurationID = awsIoOptimizedV2EssTopology.instanceConfigurationID ∧
      elem.zoneCount = sizeOnlyTopologyConfig.zone_count.getD awsIoOptimizedV2EssTopology.zoneCount ∧
      (sizeOnlyTopologyConfig.size = none → elem.size = awsIoOptimizedV2EssTopology.size) ∧
      (∀ s, sizeOnlyTopologyConfig.size = some s → ∃ v, parseGb s = .ok v ∧
        elem.size = some { resource := some "memory", value := some v }) ∧
      (∃ tplNt, awsIoOptimizedV2EssTopology.nodeType.getD { appserver := none, connector := none, worker := none } = tplNt ∧
        elem.nodeType = some { appserver := sizeOnlyTopologyConfig.node_type_appserver.or tplNt.appserver,
                               connector := sizeOnlyTopologyConfig.node_type_connector.or tplNt.connector,
                               worker := sizeOnlyTopologyConfig.node_type_worker.or tplNt.worker })) :=
  ⟨rfl, rfl,
    expand_infers_single_template_instance_configuration sizeOnlyEssResourceConfig
      awsIoOptimizedV2Ess awsIoOptimizedV2EssPlan awsIoOptimizedV2EssTopology
      sizeOnlyTopologyConfig [sizeOnlyExpandedPayload] rfl rfl rfl rfl rfl⟩

/-- Claim C2: for every flat config whose topology block is entirely
omitted, whenever expand succeeds against the aws-io-optimized-v2 template
it returns exactly one topology element whose size, zone count,
instance-configuration id and node-type flags are all equal to the
corresponding template entry (id aws.enterprisesearch.m5d, zone count 2,
memory size 2048, appserver/connector/worker all true). -/
theorem expand_omitted_topology_equals_template_entry
    (es : EssResourceConfig) (res : List EnterpriseSearchPayload)
    (ht : es.topology = [])
    (hok : expandEssResources [es] (some awsIoOptimizedV2Ess) = .ok res) :
    ∃ p pl, res = [p] ∧ p.plan = some pl ∧
      pl.clusterTopology = [{ zoneCount := 2, instanceConfigurationID := "aws.enterprisesearch.m5d", size := some { resource := some "memory", value := some 2048 }, nodeType := some { appserver := some true, connector := some true, worker := some true } }] := by
  obtain ⟨p, hp, hres⟩ := expandEssResources_singleton_ok hok
  obtain ⟨topos, htp, hpdef⟩ := expandEssResource_ok hp
  rw [ht] at htp
  rw [show expandEssTopologyList [] (essTemplateTopologies awsIoOptimizedV2Ess) =
      .ok [awsIoOptimizedV2EssTopology] from rfl] at htp
  simp only [Except.ok.injEq] at htp
  exact ⟨p, _, hres, by rw [hpdef], by rw [← htp]; rfl⟩

/-- Witness for claim C2 at the no-topology source fixture. -/
theorem expand_omitted_topology_equals_template_entry_witness :
    baseEssResourceConfig.topology = [] ∧
    expandEssResources [baseEssResourceConfig] (some awsIoOptimizedV2Ess) = .ok [noTopologyExpandedPayload] ∧
    (∃ p pl, [noTopologyExpandedPayload] = [p] ∧ p.plan = some pl ∧
      pl.clusterTopology = [{ zoneCount := 2, instanceConfigurationID := "aws.enterprisesearch.m5d", size := some { resource := some "memory", value := some 2048 }, nodeType := some { appserver := some true, connector := some true, worker := some true } }]) :=
  ⟨rfl, rfl,
    expand_omitted_topology_equals_template_entry baseEssResourceConfig
      [noTopologyExpandedPayload] rfl rfl⟩

/-- Claim C3: for every flat config whose single topology block carries an
explicit instance-configuration id that occurs in no template entry for the
resource kind, expand returns an error (hence no payload) whose message
contains the offending id verbatim. -/
theorem expand_unknown_instance_configuration_id_fails
    (es : EssResourceConfig) (tpl : EnterpriseSearchPayload) (pl : EnterpriseSearchPlan)
    (t : EssTopologyConfig) (icid : String)
    (hpl : tpl.plan = some pl) (ht : es.topology = [t])
    (hid : t.instance_configuration_id = some icid)
    (hnot : ∀ e ∈ pl.clusterTopology, e.instanceConfigurationID ≠ icid) :
    ∃ pre post, expandEssResources [es] (some tpl) = .error (pre ++ icid ++ post) := by
  refine ⟨"enterprise_search topology: invalid instance_configuration_id: \"",
    "\" does not match any of the deployment template instance configurations", ?_⟩
  have htl : essTemplateTopologies tpl = pl.clusterTopology := by
    simp [essTemplateTopologies, hpl]
  have hfind : pl.clusterTopology.find? (fun e => e.instanceConfigurationID = icid) = none := by
    rw [List.find?_eq_none]
    intro x hx
    simpa using hnot x hx
  have hmatch : matchEssTopology icid pl.clusterTopology =
      .error (invalidInstanceConfigurationIdError icid) := by
    simp [matchEssTopology, hfind]
  have helem : expandEssTopologyElement 1 pl.clusterTopology t =
      .error (invalidInstanceConfigurationIdError icid) := by
    simp [expandEssTopologyElement, resolveInstanceConfigurationId, hid, hmatch]
  have hlist : expandEssTopologyList [t] pl.clusterTopology =
      .error (invalidInstanceConfigurationIdError icid) := by
    simp [expandEssTopologyList, expandEssTopologies, helem]
  have hres2 : expandEssResource es tpl = .error (invalidInstanceConfigurationIdError icid) := by
    simp [expandEssResource, ht, htl, hlist]
  simp [expandEssResources, expandEssResourceList, hres2]
  rfl

/-- Witness for claim C3 at the invalid-id source fixture (the id
aws.enterprisesearch.m5 does not occur in the template). -/
theorem expand_unknown_instance_configuration_id_fails_witness :
    unknownIdEssResourceConfig.topology = [unknownIdTopologyConfig] ∧
    unknownIdTopologyConfig.instance_configuration_id = some "aws.enterprisesearch.m5" ∧
    (∀ e ∈ awsIoOptimizedV2EssPlan.clusterTopology, e.instanceConfigurationID ≠ "aws.enterprisesearch.m5") ∧
    (∃ pre post, expandEssResources [unknownIdEssResourceConfig] (some awsIoOptimizedV2Ess) = .error (pre ++ "aws.enterprisesearch.m5" ++ post)) :=
  ⟨rfl, rfl, by decide,
    expand_unknown_instance_configuration_id_fails unknownIdEssResourceConfig
      awsIoOptimizedV2Ess awsIoOptimizedV2EssPlan unknownIdTopologyConfig
      "aws.enterprisesearch.m5" rfl rfl rfl (by decide)⟩

/-- Claim C4: for every flat config supplying two or more topology blocks
none of which specifies an instance-configuration id, against a template
with a single matching entry, expand fails with an error instead of
inferring the id for any block. -/
theorem expand_ambiguous_topology_blocks_fail
    (es : EssResourceConfig) (tpl : EnterpriseSearchPayload) (pl : EnterpriseSearchPlan)
    (e : EnterpriseSearchTopologyElement) (t1 t2 : EssTopologyConfig)
    (rest : List EssTopologyConfig)
    (hpl : tpl.plan = some pl) (hsingle : pl.clusterTopology = [e])
    (hne : e.instanceConfigurationID ≠ "")
    (ht : es.topology = t1 :: t2 :: rest)
    (hids : ∀ t ∈ es.topology, t.instance_configuration_id = none) :
    ∃ msg, expandEssResources [es] (some tpl) = .error msg := by
  refine ⟨invalidInstanceConfigurationIdError "", ?_⟩
  have htl : essTemplateTopologies tpl = [e] := by
    simp [essTemplateTopologies, hpl, hsingle]
  have hid1 : t1.instance_configuration_id = none :=
    hids t1 (by rw [ht]; exact List.mem_cons_self _ _)
  have hicid : ∀ n, n ≠ 1 →
      resolveInstanceConfigurationId n t1.instance_configuration_id [e] = "" := by
    intro n hn
    rw [hid1]
    simp only [resolveInstanceConfigurationId]
    rw [if_neg hn]
  have hfind : [e].find? (fun x => x.instanceConfigurationID = ("" : String)) = none := by
    rw [List.find?_eq_none]
    intro x hx
    simp only [List.mem_singleton] at hx
    subst hx
    simpa using hne
  have hmatch : matchEssTopology "" [e] = .error (invalidInstanceConfigurationIdError "") := by
    simp [matchEssTopology, hfind]
  have helem : expandEssTopologyElement (rest.length + 1 + 1) [e] t1 =
      .error (invalidInstanceConfigurationIdError "") := by
    simp [expandEssTopologyElement, hicid (rest.length + 1 + 1) (by omega), hmatch]
  have hlist : expandEssTopologyList (t1 :: t2 :: rest) [e] =
      .error (invalidInstanceConfigurationIdError "") := by
    simp [expandEssTopologyList, expandEssTopologies, helem]
  have hres2 : expandEssResource es tpl = .error (invalidInstanceConfigurationIdError "") := by
    simp [expandEssResource, ht, htl, hlist]
  simp [expandEssResources, expandEssResourceList, hres2]

/-- Witness for claim C4 at the two-blocks source fixture. -/
theorem expand_ambiguous_topology_blocks_fail_witness :
    twoBlocksEssResourceConfig.topology = [sizeOnlyTopologyConfig, sizeOnlyTopologyConfig] ∧
    awsIoOptimizedV2EssTopology.instanceConfigurationID ≠ "" ∧
    (∀ t ∈ twoBlocksEssResourceConfig.topology, t.instance_configuration_id = none) ∧
    (∃ msg, expandEssResources [twoBlocksEssResourceConfig] (some awsIoOptimizedV2Ess) = .error msg) :=
  ⟨rfl, by decide, by decide,
    expand_ambiguous_topology_blocks_fail twoBlocksEssResourceConfig awsIoOptimizedV2Ess
      awsIoOptimizedV2EssPlan awsIoOptimizedV2EssTopology sizeOnlyTopologyConfig
      sizeOnlyTopologyConfig [] rfl rfl (by decide) rfl (by decide)⟩

/-- Claim C5: for every non-empty flat config paired with a template that
has no entry for the resource kind (a nil template payload), expand fails
with the error stating the deployment template is not configured for
enterprise_search and must be changed to support it. -/
theorem expand_unconfigured_template_fails
    (es : EssResourceConfig) (rest : List EssResourceConfig) :
    expandEssResources (es :: rest) none = .error essNotConfiguredError := rfl

/-- Claim C6: size-string parsing converts gigabyte suffixes to the
megabyte base unit, pairing the numeric value with the resource kind
memory: "4g" parses to 4096 and "2g" to 2048. -/
theorem size_string_parses_gigabytes_to_megabytes :
    parseTopologySizeString "4g" = .ok { resource := some "memory", value := some 4096 } ∧
    parseTopologySizeString "2g" = .ok { resource := some "memory", value := some 2048 } :=
  ⟨rfl, rfl⟩

/-- Claim C7: for every settings payload in which both the logging
destination and the metrics destination reference the same deployment id
and ref id, flattenObservability returns exactly one entry, keyed by that
deployment id and ref id, carrying both logs true and metrics true. -/
theorem flatten_observability_merges_logs_and_metrics_by_key
    (did : Option String) (rid : String) :
    flattenObservability (some { observability := some { logging := some { destination := some { deploymentID := did, refID := rid } }, metrics := some { destination := some { deploymentID := did, refID := rid } } } }) =
      [{ deployment_id := did, ref_id := rid, logs := true, metrics := true }] := by
  simp [flattenObservability, setObservabilityFlag]

/-- Claim C8: flattenObservability of a nil settings payload, an empty
settings payload, or a settings payload with an empty observability
substructure returns the empty result: absent optional substructures never
introduce entries. -/
theorem flatten_observability_empty_settings_empty_result :
    flattenObservability none = [] ∧
    flattenObservability (some { observability := none }) = [] ∧
    flattenObservability (some { observability := some { logging := none, metrics := none } }) = [] :=
  ⟨rfl, rfl, rfl⟩

/-- Claim C9: when the flat config list is absent (nil), expand returns a
nil payload and a nil error, for any template; absence of configuration is
not an error condition. -/
theorem expand_absent_flat_config_returns_nil (tpl : Option EnterpriseSearchPayload) :
    expandEssResources [] tpl = .ok [] := rfl

/-- Claim C10: for every flat config whose region is nil, expand back-fills
the payload region from the deployment template (us-east-1 for the
aws-io-optimized-v2 fixture), and explicit nil values for the config-block
fields produce no corresponding payload fields (empty YAML strings, absent
JSON values), independently of the remaining scalar attributes. -/
theorem expand_backfills_region_and_ignores_nil_config_fields (r rid v c : String) :
    expandEssResources [{ ref_id := r, resource_id := rid, version := v, region := none, elasticsearch_cluster_ref_id := c, config := [nilFieldsConfigBlock], topology := [] }] (some awsIoOptimizedV2Ess) =
      .ok [{ elasticsearchClusterRefID := some c, region := some "us-east-1", refID := some r, plan := some { enterpriseSearch := some { version := v, userSettingsYaml := "", userSettingsOverrideYaml := "", userSettingsJSON := none, userSettingsOverrideJSON := none }, clusterTopology := [awsIoOptimizedV2EssTopology] } }] := rfl

/-- Replication of the source test "parses an enterprise_search resource
with explicit topology": 2g parses to 2048, the explicit zone count 1 is
kept, node types come from the template. -/
theorem expandEss_replicates_explicit_topology_test :
    expandEssResources [{ baseEssResourceConfig with topology := [explicitTopologyConfig] }] (some awsIoOptimizedV2Ess) =
      .ok [{ noTopologyExpandedPayload with plan := some { enterpriseSearch := some expandedBaseConfiguration, clusterTopology := [{ awsIoOptimizedV2EssTopology with zoneCount := 1, size := some { resource := some "memory", value := some 2048 } }] } }] := rfl

/-- Replication of the source test "parses an enterprise_search resource
with no topology takes the minimum size". -/
theorem expandEss_replicates_no_topology_test :
    expandEssResources [baseEssResourceConfig] (some awsIoOptimizedV2Ess) =
      .ok [noTopologyExpandedPayload] := rfl

/-- Replication of the source test "parses an enterprise_search resource
with topology but no instance_configuration_id". -/
theorem expandEss_replicates_size_only_test :
    expandEssResources [sizeOnlyEssResourceConfig] (some awsIoOptimizedV2Ess) =
      .ok [sizeOnlyExpandedPayload] := rfl

/-- Replication of the source test "parses an enterprise_search resource
with topology but instance_configuration_id": every other field is
back-filled from the template. -/
theorem expandEss_replicates_icid_only_test :
    expandEssResources [{ baseEssResourceConfig with topology := [icidOnlyTopologyConfig] }] (some awsIoOptimizedV2Ess) =
      .ok [noTopologyExpandedPayload] := rfl

/-- Replication of the source test "parses an enterprise_search resource
with topology and zone_count". -/
theorem expandEss_replicates_zone_count_only_test :
    expandEssResources [{ baseEssResourceConfig with topology := [zoneCountOnlyTopologyConfig] }] (some awsIoOptimizedV2Ess) =
      .ok [{ noTopologyExpandedPayload with plan := some { enterpriseSearch := some expandedBaseConfiguration, clusterTopology := [{ awsIoOptimizedV2EssTopology with zoneCount := 1 }] } }] := rfl

/-- Replication of the source test "parses an enterprise_search resource
with explicit topology and config": the YAML/JSON override strings map to
the payload verbatim. -/
theorem expandEss_replicates_config_block_test :
    expandEssResources [populatedEssResourceConfig] (some awsIoOptimizedV2Ess) =
      .ok [{ noTopologyExpandedPayload with refID := some "secondary-enterprise_search", plan := some { enterpriseSearch := some { version := "7.7.0", userSettingsYaml := "some.setting: value", userSettingsOverrideYaml := "some.setting: override", userSettingsJSON := some "\x7b\"some.setting\":\"value\"\x7d", userSettingsOverrideJSON := some "\x7b\"some.setting\":\"override\"\x7d" }, clusterTopology := [{ awsIoOptimizedV2EssTopology with zoneCount := 1, size := some { resource := some "memory", value := some 4096 } }] } }] := rfl

/-- Replication of the source test "parses an enterprise_search resource
with explicit nils": the nil region falls back to the template region
us-east-1 and the nil config fields reach no payload field. -/
theorem expandEss_replicates_explicit_nils_test :
    expandEssResources [nilFieldsEssResourceConfig] (some awsIoOptimizedV2Ess) =
      .ok [{ noTopologyExpandedPayload with region := some "us-east-1", refID := some "secondary-enterprise_search" }] := rfl

/-- Replication of the source test "parses an enterprise_search resource
with multiple topologies but no instance_configuration_id": the empty
resolved id fails validation. -/
theorem expandEss_replicates_two_blocks_error_test :
    expandEssResources [twoBlocksEssResourceConfig] (some awsIoOptimizedV2Ess) =
      .error (invalidInstanceConfigurationIdError "") := rfl

/-- Replication of the source test "parses an enterprise_search resource
with invalid instance_configuration_id". -/
theorem expandEss_replicates_unknown_id_error_test :
    expandEssResources [unknownIdEssResourceConfig] (some awsIoOptimizedV2Ess) =
      .error (invalidInstanceConfigurationIdError "aws.enterprisesearch.m5") := rfl

/-- Replication of the source test "tries to parse an enterprise_search
resource when the template does not have an Enterprise Search instance
set". -/
theorem expandEss_replicates_no_template_error_test :
    expandEssResources [baseEssResourceConfig] none = .error essNotConfiguredError := rfl

/-- Replication of the "flattens observability settings" source test with
only a logging destination. -/
theorem flatten_replicates_logging_only_test :
    flattenObservability (some { observability := some { logging := some { destination := some mainEsDestination }, metrics := none } }) =
      [{ deployment_id := some validClusterId, ref_id := "main-elasticsearch", logs := true, metrics := false }] := rfl

/-- Replication of the "flattens observability settings" source test with
only a metrics destination. -/
theorem flatten_replicates_metrics_only_test :
    flattenObservability (some { observability := some { logging := none, metrics := some { destination := some mainEsDestination } } }) =
      [{ deployment_id := some validClusterId, ref_id := "main-elasticsearch", logs := false, metrics := true }] := rfl

/-- Replication of the "flattens observability settings" source test with
both destinations on the same deployment id and ref id: a single merged
entry. -/
theorem flatten_replicates_merged_test :
    flattenObservability (some { observability := some { logging := some { destination := some mainEsDestination }, metrics := some { destination := some mainEsDestination } } }) =
      [{ deployment_id := some validClusterId, ref_id := "main-elasticsearch", logs := true, metrics := true }] := rfl
